import Mathlib

/-!
Shallow embedding of the question-answering pipeline in
`examples/langgraph_questioning_system.py` (with the duplicated
`SmartDataEngine.execute_sql` of `examples/smart_questioning_system.py`
sharing the same structure).

Strings are modelled as `List Char` (`Str`); Python dicts used as string
maps are association lists with first-entry-wins lookup; the ambient
`datetime.date.today()` is threaded as an explicit `Date` argument; the
external MySQL driver and server are modelled by a `driverAvailable` flag
and a `ConnectOutcome` oracle describing what the single
connect-and-query attempt would do.
-/

namespace SmartQA

abbrev Str := List Char

/-- A calendar date, as `datetime.date` (year, month, day). -/
structure Date where
  year : Nat
  month : Nat
  day : Nat
  deriving DecidableEq

/-- Gregorian leap-year rule (as implemented by `datetime`). -/
def isLeap (y : Nat) : Bool :=
  (y % 4 = 0 && y % 100 ≠ 0) || y % 400 = 0

/-- Number of days of month `m` in year `y` (as used by `datetime`). -/
def daysInMonth (y m : Nat) : Nat :=
  if m = 2 then (if isLeap y then 29 else 28)
  else if m = 4 ∨ m = 6 ∨ m = 9 ∨ m = 11 then 30
  else 31

/-- The successor day, rolling over month and year boundaries. -/
def nextDay (d : Date) : Date :=
  if d.day < daysInMonth d.year d.month then ⟨d.year, d.month, d.day + 1⟩
  else if d.month < 12 then ⟨d.year, d.month + 1, 1⟩
  else ⟨d.year + 1, 1, 1⟩

/-- `date + timedelta(days=n)`. -/
def addDays : Date → Nat → Date
  | d, 0 => d
  | d, n + 1 => addDays (nextDay d) n

/-- `date.replace(day=k)`. -/
def replaceDay (d : Date) (k : Nat) : Date := ⟨d.year, d.month, k⟩

/-- The decimal digit character for `n < 10`. -/
def digitChar (n : Nat) : Char := Char.ofNat (48 + n)

/-- Two-digit zero-padded decimal rendering (strftime `%m` / `%d`). -/
def pad2 (n : Nat) : Str := [digitChar (n / 10), digitChar (n % 10)]

/-- Four-digit zero-padded decimal rendering (strftime `%Y` for years 1000..9999). -/
def pad4 (n : Nat) : Str :=
  [digitChar (n / 1000), digitChar (n / 100 % 10), digitChar (n / 10 % 10), digitChar (n % 10)]

/-- Numeric value of a decimal digit character. -/
def charVal (c : Char) : Nat := c.toNat - 48

/-- Decimal parse of a digit string. -/
def parseNat (s : Str) : Nat := s.foldl (fun a c => 10 * a + charVal c) 0

/-- `d.strftime("%Y-%m-01")`. -/
def strftime_Y_m_01 (d : Date) : Str :=
  pad4 d.year ++ "-".data ++ pad2 d.month ++ "-01".data

/-- `d.strftime("%Y-%m-%d")`. -/
def strftime_Y_m_d (d : Date) : Str :=
  pad4 d.year ++ "-".data ++ pad2 d.month ++ "-".data ++ pad2 d.day

/-- `datetime.strptime(s, "%Y-%m-%d")` on the canonical fixed-width
`YYYY-MM-DD` strings produced by the formatters above. -/
def strptime_Y_m_d (s : Str) : Date :=
  ⟨parseNat (s.take 4), parseNat ((s.drop 5).take 2), parseNat ((s.drop 8).take 2)⟩

/-- `_default_time_filter`, with `datetime.date.today()` passed explicitly. -/
def default_time_filter (today : Date) : Str :=
  let first_day := strftime_Y_m_01 (replaceDay today 1)
  let next_month := first_day.take 7 ++ "-01".data
  let next_month_dt := addDays (strptime_Y_m_d next_month) 32
  let next_first := strftime_Y_m_d (replaceDay next_month_dt 1)
  "CREATE_TIME >= '".data ++ first_day ++ "' AND CREATE_TIME < '".data ++ next_first ++ "'".data

/-!
Template matching.  The catalog patterns are of the restricted regex form
`[.*]lit1.*lit2...*litK` (literal segments joined by `.*`), so a pattern is
embedded as its list of literal segments; `re.search` succeeds exactly when
the segments occur in the question, disjointly and in order.  `dropSeg`
consumes the first occurrence of one segment and returns the remainder.
-/

/-- Remainder of `s` after the first occurrence of `seg`, if any. -/
def dropSeg (seg : Str) : Str → Option Str
  | [] => if seg.isEmpty then some [] else none
  | c :: t => if seg.isPrefixOf (c :: t) then some ((c :: t).drop seg.length) else dropSeg seg t

/-- `re.search` of a segment-list pattern: all segments occur, in order. -/
def matchSegs : List Str → Str → Bool
  | [], _ => true
  | seg :: rest, s =>
    match dropSeg seg s with
    | some s2 => matchSegs rest s2
    | none => false

/-- One piece of a query template: literal text or a named placeholder. -/
inductive Piece where
  | lit (s : Str)
  | hole (name : Str)
  deriving DecidableEq

/-- `QuestionTemplate` dataclass.  `pattern` is the segment-list embedding of
the regex; `sql_template` is the piece-list embedding of the format string. -/
structure QuestionTemplate where
  intent : Str
  pattern : List Str
  sql_template : List Piece
  required_params : List Str := []
  optional_params : List Str := []
  exampleText : Option Str := none
  deriving DecidableEq

/-- `_detect_template`: first template whose pattern matches the question. -/
def detect_template (question : Str) : List QuestionTemplate → Option QuestionTemplate
  | [] => none
  | tpl :: rest =>
    if matchSegs tpl.pattern question then some tpl else detect_template question rest

/-- A Python dict from string keys to string values: association list,
first entry wins on lookup. -/
abbrev Params := List (Str × Str)

/-- Dict lookup (`params.get(k)` / `k in params`). -/
def pfind (m : Params) (k : Str) : Option Str :=
  (m.find? (fun e => decide (e.1 = k))).map (·.2)

/-- Dict assignment `m[k] = v` (new binding shadows any old one). -/
def pinsert (m : Params) (k v : Str) : Params := (k, v) :: m

/-!
Parameter derivation.  The `unit_name` regex
`([一-龥A-Za-z0-9]+街道办事处)` is embedded with `re.search`
semantics: leftmost starting position, greedy (longest) run of class
characters before the literal suffix.
-/

/-- Character class `[一-龥A-Za-z0-9]`. -/
def isUnitChar (c : Char) : Bool :=
  (0x4e00 ≤ c.toNat && c.toNat ≤ 0x9fa5) ||
  (65 ≤ c.toNat && c.toNat ≤ 90) ||
  (97 ≤ c.toNat && c.toNat ≤ 122) ||
  (48 ≤ c.toNat && c.toNat ≤ 57)

/-- The literal suffix 街道办事处 of the `unit_name` capture pattern. -/
def unitSuffix : Str := "街道办事处".data

/-- Greedy match of `[class]+街道办事处` anchored at the start of `s`:
the `+` consumes as many class characters as possible (at least one) such
that the literal suffix follows; returns the captured token. -/
def matchUnitAt (s : Str) : Option Str :=
  match (List.range (s.takeWhile isUnitChar).length).reverse.find?
      (fun k => unitSuffix.isPrefixOf (s.drop (k + 1))) with
  | some k => some (s.take (k + 1) ++ unitSuffix)
  | none => none

/-- `re.search` of the `unit_name` pattern: scan start positions left to
right, return the first (leftmost) capture. -/
def findUnit : Str → Option Str
  | [] => none
  | c :: t =>
    match matchUnitAt (c :: t) with
    | some tok => some tok
    | none => findUnit t

/-- The fixed compound keyword predicate emitted for `event_filter`. -/
def eventFilter : Str :=
  ("(SUB_TYPE_NAME LIKE '%暴露垃圾%' OR THIRD_TYPE_NAME LIKE '%暴露垃圾%' " ++
   "OR MAX_EVENT_TYPE_NAME LIKE '%暴露垃圾%' OR EVENT_DESC LIKE '%暴露垃圾%')").data

/-- `_derive_params`. -/
def derive_params (today : Date) (question : Str) (template : QuestionTemplate) : Params :=
  let params : Params := []
  let params :=
    if "unit_name".data ∈ template.required_params ∨ "unit_name".data ∈ template.optional_params then
      match findUnit question with
      | some tok => pinsert params "unit_name".data tok
      | none => params
    else params
  let params :=
    if "event_filter".data ∈ template.required_params then
      pinsert params "event_filter".data eventFilter
    else params
  let params :=
    if "time_filter".data ∈ template.optional_params then
      pinsert params "time_filter".data (default_time_filter today)
    else params
  params

/-- `str.format(**filled)` over the piece list: a placeholder missing from
the map raises `KeyError`, modelled as `none`. -/
def formatPieces : List Piece → Params → Option Str
  | [], _ => some []
  | .lit s :: rest, m => (formatPieces rest m).map (fun r => s ++ r)
  | .hole k :: rest, m =>
    match pfind m k with
    | some v => (formatPieces rest m).map (fun r => v ++ r)
    | none => none

/-- `_render_sql`: seed every declared name with the empty string, overlay
the supplied params (supplied values win), then substitute. -/
def render_sql (template : QuestionTemplate) (params : Params) : Option Str :=
  let filled :=
    params ++ (template.required_params ++ template.optional_params).map (fun k => (k, ([] : Str)))
  formatPieces template.sql_template filled

/-!
`SmartDataEngine.execute_sql`.  The external world is an explicit oracle:
`driverAvailable` is whether `importlib.util.find_spec("mysql.connector")`
succeeds, and `ConnectOutcome` describes the single connect-and-query
attempt (connect raises, or a connection is established and the query
either raises or yields rows).  The returned `ExecSt` is a resource
ledger recording how many connect attempts were made and how many
connections were established and closed.
-/

/-- The `DB_CONFIG` connection descriptor. -/
structure DbConfig where
  host : Str
  port : Nat
  user : Str
  password : Str
  database : Str
  deriving DecidableEq

def DB_CONFIG : DbConfig :=
  ⟨"10.250.2.19".data, 3306, "root".data, "hwits888".data, "pingshan".data⟩

/-- A row value: string or integer. -/
inductive JVal where
  | s (v : Str)
  | n (v : Int)
  deriving DecidableEq

abbrev Row := List (Str × JVal)

/-- The result dict of `execute_sql`. -/
structure ExecResult where
  status : Str
  sql : Str
  rows : List Row
  note : Str
  deriving DecidableEq

/-- What the cursor/query part of the attempt would do. -/
inductive QueryOutcome where
  | ok (rows : List Row)
  | raise (msg : Str)
  deriving DecidableEq

/-- What the connect part of the attempt would do. -/
inductive ConnectOutcome where
  | connectFail (msg : Str)
  | connected (q : QueryOutcome)
  deriving DecidableEq

/-- Resource ledger of one `execute_sql` call. -/
structure ExecSt where
  attempts : Nat
  opened : Nat
  closed : Nat
  deriving DecidableEq

/-- The fixed illustrative mock row list. -/
def mockRows : List Row := [[("示例字段".data, .s "value".data), ("count".data, .n 42)]]

/-- `SmartDataEngine.execute_sql` with its resource ledger.  The
`try`/`except`/`finally` block is embedded as: run the body to an
`Except` together with the final value of the `connection` variable
(`true` iff it is not `None`), apply the `except` handler, then the
`finally` clause closes the connection exactly when it was set. -/
def execute_sql_core (dbConfig : Option DbConfig) (driverAvailable : Bool)
    (conn : ConnectOutcome) (sql : Str) : ExecResult × ExecSt :=
  match dbConfig with
  | none =>
    (⟨"mock".data, sql, mockRows, "未提供数据库配置，已返回模拟结果。".data⟩, ⟨0, 0, 0⟩)
  | some _ =>
    if driverAvailable = false then
      (⟨"mock".data, sql, mockRows, "未检测到 mysql-connector-python，已返回模拟结果。".data⟩,
        ⟨0, 0, 0⟩)
    else
      let attempt : Except Str ExecResult × Bool :=
        match conn with
        | .connectFail msg => (Except.error msg, false)
        | .connected (.raise msg) => (Except.error msg, true)
        | .connected (.ok rows) =>
          (Except.ok ⟨"success".data, sql, rows, "已连接 MySQL 返回真实结果。".data⟩, true)
      let result :=
        match attempt.1 with
        | Except.ok r => r
        | Except.error msg => ⟨"error".data, sql, [], "查询失败，回退到模拟模式: ".data ++ msg⟩
      (result, ⟨1, if attempt.2 then 1 else 0, if attempt.2 then 1 else 0⟩)

/-- `SmartDataEngine.execute_sql`, result only. -/
def execute_sql (dbConfig : Option DbConfig) (driverAvailable : Bool)
    (conn : ConnectOutcome) (sql : Str) : ExecResult :=
  (execute_sql_core dbConfig driverAvailable conn sql).1

/-!
The template catalog of `_build_assets` (the schema and vocabulary assets
do not influence any pipeline stage and are omitted).
-/

def template_unit_count : QuestionTemplate :=
  { intent := "data_query".data,
    pattern := ["街道".data, "处理".data, "多少".data, "案件".data],
    sql_template :=
      [ .lit "SELECT COUNT(*) AS 案件数量 FROM pingshan_stat_info WHERE first_unit_name LIKE '%".data,
        .hole "unit_name".data,
        .lit "%' AND ".data,
        .hole "time_filter".data ],
    required_params := ["unit_name".data],
    optional_params := ["time_filter".data],
    exampleText := some "这个月坪山街道办事处处理了多少案件".data }

def template_event_source : QuestionTemplate :=
  { intent := "data_query".data,
    pattern := ["暴露垃圾".data, "主要来源".data],
    sql_template :=
      [ .lit "SELECT EVENT_SRC_NAME AS 事件来源, COUNT(*) AS 数量 FROM pingshan_stat_info WHERE ".data,
        .hole "event_filter".data,
        .lit " GROUP BY EVENT_SRC_NAME ORDER BY 数量 DESC".data ],
    required_params := ["event_filter".data],
    exampleText := some "暴露垃圾事件的主要来源是什么".data }

def template_stat_count : QuestionTemplate :=
  { intent := "data_query".data,
    pattern := ["统计".data, "事件".data, "数量".data],
    sql_template :=
      [ .lit ("SELECT SUB_TYPE_NAME AS 事件类型, COUNT(*) AS 事件数量 FROM pingshan_stat_info " ++
              "WHERE SUB_TYPE_NAME IS NOT NULL AND SUB_TYPE_NAME <> '' " ++
              "GROUP BY SUB_TYPE_NAME ORDER BY 事件数量 DESC").data ],
    required_params := [],
    exampleText := some "统计各类型事件的数量".data }

def build_templates : List QuestionTemplate :=
  [template_unit_count, template_event_source, template_stat_count]

/-!
The LangGraph pipeline.  `QAState` is the `total=False` TypedDict: fields
a stage may find absent are `Option`s (or default to the value Python's
`state.get(key, default)` supplies).
-/

structure QAState where
  question : Str
  intent : Option Str := none
  template : Option QuestionTemplate := none
  params : Params := []
  sql : Option Str := none
  result : Option ExecResult := none
  logs : List Str := []
  deriving DecidableEq

/-- Python `repr` of a list of strings, as produced by the f-string
`f"缺失参数 {missing}..."`. -/
def pyReprList (l : List Str) : Str :=
  "[".data ++ List.intercalate ", ".data (l.map (fun s => "'".data ++ s ++ "'".data)) ++ "]".data

/-- `detect_intent` node. -/
def detect_intent (today : Date) (templates : List QuestionTemplate) (state : QAState) : QAState :=
  let question := state.question
  let tpl := detect_template question templates
  let logs := state.logs ++ ["完成意图识别".data]
  match tpl with
  | none =>
    { state with logs := logs ++ ["未匹配到模板，默认统计事件数量。".data],
                 intent := some "fallback".data }
  | some tpl =>
    { state with intent := some tpl.intent, template := some tpl,
                 params := derive_params today question tpl, logs := logs }

/-- `enrich_context` node. -/
def enrich_context (today : Date) (state : QAState) : QAState :=
  let logs := state.logs
  let params := state.params
  match state.template with
  | some tpl =>
    let missing := tpl.required_params.filter (fun p =>
      match pfind params p with
      | none => true
      | some v => v.isEmpty)
    if missing.isEmpty then
      { state with params := params, logs := logs ++ ["完成上下文补全".data] }
    else
      let logs := logs ++ ["缺失参数 ".data ++ pyReprList missing ++ "，尝试默认填充".data]
      let params :=
        if "time_filter".data ∈ missing then
          pinsert params "time_filter".data (default_time_filter today)
        else params
      { state with params := params, logs := logs ++ ["完成上下文补全".data] }
  | none => { state with params := params, logs := logs ++ ["完成上下文补全".data] }

/-- The fixed fallback count-all query. -/
def fallbackSql : Str := "SELECT COUNT(*) AS 事件数量 FROM pingshan_stat_info".data

/-- `build_sql` node; `none` models the `KeyError` `str.format` would
raise on an undeclared placeholder. -/
def build_sql (state : QAState) : Option QAState :=
  let logs := state.logs
  match state.template with
  | none =>
    some { state with sql := some fallbackSql, logs := logs ++ ["使用兜底 SQL".data] }
  | some tpl =>
    match render_sql tpl state.params with
    | some sql => some { state with sql := some sql, logs := logs ++ ["完成 SQL 生成".data] }
    | none => none

/-- `execute` node. -/
def execute_node (dbConfig : Option DbConfig) (driverAvailable : Bool) (conn : ConnectOutcome)
    (state : QAState) : QAState :=
  let sql := state.sql.getD []
  let result := execute_sql dbConfig driverAvailable conn sql
  { state with result := some result, logs := state.logs ++ ["完成 SQL 执行".data] }

/-- The one-line status summary `f"执行状态: {status}。返回 {len(rows)} 行。"`. -/
def summaryLine (status : Str) (nrows : Nat) : Str :=
  "执行状态: ".data ++ status ++ "。返回 ".data ++ (Nat.repr nrows).data ++ " 行。".data

/-- `respond` node. -/
def respond (state : QAState) : QAState :=
  let status :=
    match state.result with
    | none => "mock".data
    | some r => r.status
  let rows :=
    match state.result with
    | none => ([] : List Row)
    | some r => r.rows
  { state with logs := state.logs ++ [summaryLine status rows.length] }

/-- The five graph nodes, as one step function (a stage that raises
yields `none`). -/
inductive StageTag where
  | detect | enrich | build | exec | answer
  deriving DecidableEq

def runStage (today : Date) (templates : List QuestionTemplate) (dbConfig : Option DbConfig)
    (driverAvailable : Bool) (conn : ConnectOutcome) : StageTag → QAState → Option QAState
  | .detect, st => some (detect_intent today templates st)
  | .enrich, st => some (enrich_context today st)
  | .build, st => build_sql st
  | .exec, st => some (execute_node dbConfig driverAvailable conn st)
  | .answer, st => some (respond st)

/-- The compiled linear graph applied to the initial state
`{"question": q, "logs": []}`, with the engine configuration passed
explicitly (the source builds the engine with `db_config=DB_CONFIG`). -/
def pipeline (today : Date) (dbConfig : Option DbConfig) (driverAvailable : Bool)
    (conn : ConnectOutcome) (question : Str) : Option QAState :=
  let s0 : QAState := { question := question, logs := [] }
  let s1 := detect_intent today build_templates s0
  let s2 := enrich_context today s1
  match build_sql s2 with
  | none => none
  | some s3 =>
    let s4 := execute_node dbConfig driverAvailable conn s3
    some (respond s4)

/-! Verified properties. -/

/-- C2: with no store configuration, `execute_sql` returns status `mock`,
exactly the one fixed example row, the echoed query text and the
explanatory note, regardless of the query's content and of the
environment. -/
theorem c2_mock_when_no_config (driverAvailable : Bool) (conn : ConnectOutcome) (sql : Str) :
    execute_sql none driverAvailable conn sql =
      { status := "mock".data,
        sql := sql,
        rows := [[("示例字段".data, .s "value".data), ("count".data, .n 42)]],
        note := "未提供数据库配置，已返回模拟结果。".data } := rfl

/-- C3: with store configuration present and the driver available, exactly
one connect-and-query attempt is made, every opened connection is closed on
every exit path, and whenever connect or query raises the call returns
status `error` with an empty row list and a non-empty note embedding the
failure cause — it never propagates the exception. -/
theorem c3_error_is_caught (c : DbConfig) (conn : ConnectOutcome) (sql : Str) :
    (execute_sql_core (some c) true conn sql).2.attempts = 1 ∧
    (execute_sql_core (some c) true conn sql).2.opened =
      (execute_sql_core (some c) true conn sql).2.closed ∧
    ∀ msg, (conn = ConnectOutcome.connectFail msg ∨
            conn = ConnectOutcome.connected (.raise msg)) →
      (execute_sql_core (some c) true conn sql).1.status = "error".data ∧
      (execute_sql_core (some c) true conn sql).1.rows = [] ∧
      (execute_sql_core (some c) true conn sql).1.note ≠ [] ∧
      msg <:+ (execute_sql_core (some c) true conn sql).1.note := by
  cases conn with
  | connectFail m =>
    refine ⟨rfl, rfl, ?_⟩
    rintro msg (h | h)
    · injection h with h2
      subst h2
      refine ⟨rfl, rfl, by simp [execute_sql_core], ?_⟩
      exact List.suffix_append _ _
    · exact absurd h (by simp)
  | connected q =>
    cases q with
    | ok rows =>
      refine ⟨rfl, rfl, ?_⟩
      rintro msg (h | h) <;> simp at h
    | raise m =>
      refine ⟨rfl, rfl, ?_⟩
      rintro msg (h | h)
      · exact absurd h (by simp)
      · injection h with h2
        injection h2 with h3
        subst h3
        refine ⟨rfl, rfl, by simp [execute_sql_core], ?_⟩
        exact List.suffix_append _ _

/-- Witness for C3 at a concrete failing connect. -/
theorem c3_error_is_caught_witness :
    (execute_sql_core (some DB_CONFIG) true (.connectFail "x".data) []).2.attempts = 1 ∧
    (execute_sql_core (some DB_CONFIG) true (.connectFail "x".data) []).1.status = "error".data ∧
    (execute_sql_core (some DB_CONFIG) true (.connectFail "x".data) []).1.rows = [] ∧
    "x".data <:+ (execute_sql_core (some DB_CONFIG) true (.connectFail "x".data) []).1.note := by
  have h := c3_error_is_caught DB_CONFIG (.connectFail "x".data) []
  have h2 := h.2.2 "x".data (Or.inl rfl)
  exact ⟨h.1, h2.1, h2.2.1, h2.2.2.2⟩

/-- C10: `respond` applied to a state with no execution result does not
raise: it defaults the status to `mock` and the rows to empty and appends
exactly the summary line `执行状态: mock。返回 0 行。`. -/
theorem c10_respond_defaults (state : QAState) (h : state.result = none) :
    respond state = { state with logs := state.logs ++ ["执行状态: mock。返回 0 行。".data] } := by
  unfold respond
  rw [h]
  rfl

/-- Witness for C10 at a concrete result-free state. -/
theorem c10_respond_defaults_witness :
    respond { question := "q".data, logs := ["l".data] } =
      { question := "q".data, logs := ["l".data] ++ ["执行状态: mock。返回 0 行。".data] } :=
  c10_respond_defaults { question := "q".data, logs := ["l".data] } rfl

/-- C7: the question 暴露垃圾事件的主要来源是什么, run through the pipeline
with an engine in mock mode (no store configuration), matches the
event-source template, derives the fixed compound `event_filter`
predicate, and ends with the summary line 执行状态: mock。返回 1 行。 -/
theorem c7_event_source_scenario :
    ∃ st, pipeline ⟨2025, 10, 12⟩ none false (.connectFail []) "暴露垃圾事件的主要来源是什么".data =
        some st ∧
      st.template = some template_event_source ∧
      pfind st.params "event_filter".data =
        some ("(SUB_TYPE_NAME LIKE '%暴露垃圾%' OR THIRD_TYPE_NAME LIKE '%暴露垃圾%' " ++
              "OR MAX_EVENT_TYPE_NAME LIKE '%暴露垃圾%' OR EVENT_DESC LIKE '%暴露垃圾%')").data ∧
      st.logs.getLast? = some "执行状态: mock。返回 1 行。".data := by
  refine ⟨_, rfl, ?_, ?_, ?_⟩ <;> rfl

/-- The placeholder names occurring in a piece list. -/
def holes (pieces : List Piece) : List Str :=
  pieces.filterMap (fun p => match p with | .lit _ => none | .hole k => some k)

/-- `_render_sql` as the spec words it: straightforward substitution where
every hole takes the supplied value when present and the empty string
otherwise (declared-but-unsupplied names, even required ones, become
empty). -/
def renderSpec (template : QuestionTemplate) (params : Params) : Str :=
  template.sql_template.foldr
    (fun p acc =>
      (match p with | .lit s => s | .hole k => (pfind params k).getD []) ++ acc) []

theorem holes_cons_lit (s : Str) (rest : List Piece) : holes (.lit s :: rest) = holes rest := rfl

theorem holes_cons_hole (k : Str) (rest : List Piece) :
    holes (.hole k :: rest) = k :: holes rest := rfl

theorem pfind_append (a b : Params) (k : Str) :
    pfind (a ++ b) k = (pfind a k).or (pfind b k) := by
  unfold pfind
  rw [List.find?_append]
  cases List.find? (fun e => decide (e.1 = k)) a <;> simp

theorem pfind_seed (decl : List Str) (k : Str) (h : k ∈ decl) :
    pfind (decl.map (fun k2 => (k2, ([] : Str)))) k = some [] := by
  induction decl with
  | nil => cases h
  | cons a rest ih =>
    by_cases ha : a = k
    · subst ha
      simp [pfind, List.find?_cons_of_pos]
    · have h1 : k ∈ rest := by
        rcases List.mem_cons.1 h with h2 | h2
        · exact absurd h2.symm ha
        · exact h2
      unfold pfind at ih ⊢
      rw [List.map_cons, List.find?_cons_of_neg _ (by simp [ha])]
      exact ih h1

theorem formatPieces_seeded (pieces : List Piece) (params : Params) (decl : List Str)
    (h : ∀ k ∈ holes pieces, k ∈ decl) :
    formatPieces pieces (params ++ decl.map (fun k => (k, ([] : Str)))) =
      some (pieces.foldr
        (fun p acc =>
          (match p with | .lit s => s | .hole k => (pfind params k).getD []) ++ acc) []) := by
  induction pieces with
  | nil => rfl
  | cons p rest ih =>
    cases p with
    | lit s =>
      have hr : ∀ k ∈ holes rest, k ∈ decl := fun k hk => h k (by rw [holes_cons_lit]; exact hk)
      show (formatPieces rest _).map _ = _
      rw [ih hr]
      rfl
    | hole k =>
      have hk : k ∈ decl := h k (by rw [holes_cons_hole]; exact List.mem_cons_self k _)
      have hr : ∀ k2 ∈ holes rest, k2 ∈ decl := fun k2 hk2 =>
        h k2 (by rw [holes_cons_hole]; exact List.mem_cons_of_mem k hk2)
      show (match pfind (params ++ decl.map (fun k2 => (k2, ([] : Str)))) k with
        | some v => (formatPieces rest (params ++ decl.map (fun k2 => (k2, ([] : Str))))).map
            (fun r => v ++ r)
        | none => none) = _
      rw [pfind_append, pfind_seed decl k hk]
      cases hp : pfind params k with
      | none =>
        simp only [Option.or]
        rw [ih hr]
        simp [hp]
      | some v =>
        simp only [Option.or]
        rw [ih hr]
        simp [hp]

/-- C5: when every placeholder of a template is declared, rendering never
raises and equals substitution with a map seeded with the empty string for
every declared name and overlaid with the supplied params — a declared
name absent from the params (even a required one) substitutes as the empty
string. -/
theorem c5_render_seeded (template : QuestionTemplate) (params : Params)
    (h : ∀ k ∈ holes template.sql_template,
        k ∈ template.required_params ++ template.optional_params) :
    render_sql template params = some (renderSpec template params) :=
  formatPieces_seeded template.sql_template params
    (template.required_params ++ template.optional_params) h

/-- Witness for C5: the unit-count template rendered with an empty
parameter map (its required `unit_name` substitutes as the empty string). -/
theorem c5_render_seeded_witness :
    (∀ k ∈ holes template_unit_count.sql_template,
        k ∈ template_unit_count.required_params ++ template_unit_count.optional_params) ∧
    render_sql template_unit_count [] = some (renderSpec template_unit_count []) :=
  ⟨by decide, c5_render_seeded template_unit_count [] (by decide)⟩

theorem detect_template_cons (question : Str) (t : QuestionTemplate)
    (rest : List QuestionTemplate) :
    detect_template question (t :: rest) =
      if matchSegs t.pattern question then some t else detect_template question rest := rfl

/-- C6: template matching returns the first template in list order whose
pattern matches the question, and `none` exactly when no pattern matches —
no scoring among multiple matching templates. -/
theorem c6_first_match (question : Str) (templates : List QuestionTemplate) :
    (∀ tpl, detect_template question templates = some tpl →
      ∃ i, ∃ hi : i < templates.length,
        templates.get ⟨i, hi⟩ = tpl ∧ matchSegs tpl.pattern question = true ∧
        ∀ j, ∀ hj : j < i,
          matchSegs (templates.get ⟨j, hj.trans hi⟩).pattern question = false) ∧
    (detect_template question templates = none ↔
      ∀ tpl ∈ templates, matchSegs tpl.pattern question = false) := by
  induction templates with
  | nil =>
    constructor
    · intro tpl h
      cases h
    · simp [detect_template]
  | cons t rest ih =>
    by_cases hm : matchSegs t.pattern question = true
    · constructor
      · intro tpl h
        rw [detect_template_cons, if_pos hm] at h
        injection h with h2
        subst h2
        exact ⟨0, Nat.succ_pos rest.length, rfl, hm, fun j hj => absurd hj (Nat.not_lt_zero j)⟩
      · rw [detect_template_cons, if_pos hm]
        constructor
        · intro h
          cases h
        · intro hall
          have := hall t (List.mem_cons_self t rest)
          rw [hm] at this
          cases this
    · have hm2 : matchSegs t.pattern question = false := by
        cases hmc : matchSegs t.pattern question
        · rfl
        · exact absurd hmc hm
      constructor
      · intro tpl h
        rw [detect_template_cons, if_neg hm] at h
        obtain ⟨i, hi, hget, hmatch, hprev⟩ := ih.1 tpl h
        refine ⟨i + 1, Nat.succ_lt_succ hi, hget, hmatch, ?_⟩
        intro j hj
        cases j with
        | zero => exact hm2
        | succ j2 => exact hprev j2 (Nat.lt_of_succ_lt_succ hj)
      · rw [detect_template_cons, if_neg hm, ih.2]
        constructor
        · intro hall tpl htpl
          rcases List.mem_cons.1 htpl with h1 | h1
          · rw [h1]
            exact hm2
          · exact hall tpl h1
        · intro hall tpl htpl
          exact hall tpl (List.mem_cons_of_mem _ htpl)

/-- Witness for C6: the catalog question 统计各类型事件的数量 selects the
third template, and both earlier templates fail to match. -/
theorem c6_first_match_witness :
    ∃ i, ∃ hi : i < build_templates.length,
      build_templates.get ⟨i, hi⟩ = template_stat_count ∧
      matchSegs template_stat_count.pattern "统计各类型事件的数量".data = true ∧
      ∀ j, ∀ hj : j < i,
        matchSegs (build_templates.get ⟨j, hj.trans hi⟩).pattern "统计各类型事件的数量".data = false :=
  (c6_first_match "统计各类型事件的数量".data build_templates).1 template_stat_count rfl

theorem logs_grow (l m : List Str) (h : m ≠ []) :
    l <+: l ++ m ∧ l.length < (l ++ m).length := by
  refine ⟨List.prefix_append l m, ?_⟩
  have h2 : 0 < m.length := List.length_pos.2 h
  rw [List.length_append]
  omega

/-- C9: every pipeline stage that completes produces a state whose log has
the input state's log as a proper prefix — the log is append-only and each
stage appends at least one line. -/
theorem c9_logs_append_only (today : Date) (templates : List QuestionTemplate)
    (dbConfig : Option DbConfig) (driverAvailable : Bool) (conn : ConnectOutcome)
    (stage : StageTag) (st st2 : QAState)
    (h : runStage today templates dbConfig driverAvailable conn stage st = some st2) :
    st.logs <+: st2.logs ∧ st.logs.length < st2.logs.length := by
  obtain ⟨q, it, tp, pa, sq, re, lg⟩ := st
  cases stage with
  | detect =>
    injection h with h2
    subst h2
    dsimp only [detect_intent]
    cases detect_template q templates with
    | none =>
      rw [List.append_assoc]
      exact logs_grow lg _ (by simp)
    | some tpl =>
      exact logs_grow lg _ (by simp)
  | enrich =>
    injection h with h2
    subst h2
    dsimp only [enrich_context]
    cases tp with
    | none => exact logs_grow lg _ (by simp)
    | some tpl =>
      dsimp only []
      split
      · exact logs_grow lg _ (by simp)
      · rw [List.append_assoc]
        exact logs_grow lg _ (by simp)
  | build =>
    replace h : build_sql (⟨q, it, tp, pa, sq, re, lg⟩ : QAState) = some st2 := h
    dsimp only [build_sql] at h
    cases tp with
    | none =>
      injection h with h2
      subst h2
      exact logs_grow lg _ (by simp)
    | some tpl =>
      dsimp only [] at h
      cases hr : render_sql tpl pa with
      | none =>
        rw [hr] at h
        cases h
      | some s =>
        rw [hr] at h
        injection h with h2
        subst h2
        exact logs_grow lg _ (by simp)
  | exec =>
    injection h with h2
    subst h2
    exact logs_grow lg _ (by simp)
  | answer =>
    injection h with h2
    subst h2
    exact logs_grow lg _ (by simp)

/-- Witness for C9 at the respond stage on a concrete state. -/
theorem c9_logs_append_only_witness :
    (⟨"q".data, none, none, [], none, none, ["l".data]⟩ : QAState).logs <+:
      (respond ⟨"q".data, none, none, [], none, none, ["l".data]⟩).logs ∧
    (⟨"q".data, none, none, [], none, none, ["l".data]⟩ : QAState).logs.length <
      (respond ⟨"q".data, none, none, [], none, none, ["l".data]⟩).logs.length :=
  c9_logs_append_only ⟨2025, 1, 1⟩ [] none false (.connectFail []) .answer
    ⟨"q".data, none, none, [], none, none, ["l".data]⟩
    (respond ⟨"q".data, none, none, [], none, none, ["l".data]⟩) rfl

/-- C1: a question matching no template runs the whole pipeline without
raising, ends with intent `fallback`, the fixed count-all query, and a log
whose last line is the row-count summary of the execution result. -/
theorem c1_fallback_completes (today : Date) (dbConfig : Option DbConfig)
    (driverAvailable : Bool) (conn : ConnectOutcome) (question : Str)
    (h : detect_template question build_templates = none) :
    ∃ st, pipeline today dbConfig driverAvailable conn question = some st ∧
      st.intent = some "fallback".data ∧
      st.sql = some "SELECT COUNT(*) AS 事件数量 FROM pingshan_stat_info".data ∧
      ∃ r, st.result = some r ∧
        st.logs.getLast? = some (summaryLine r.status r.rows.length) := by
  simp only [pipeline, detect_intent, h, enrich_context, build_sql, execute_node, respond]
  refine ⟨_, rfl, rfl, rfl, _, rfl, ?_⟩
  exact List.getLast?_concat _

/-- Witness for C1 at the unmatched question 今天天气怎么样. -/
theorem c1_fallback_completes_witness :
    ∃ st, pipeline ⟨2025, 10, 12⟩ (some DB_CONFIG) false (.connectFail [])
        "今天天气怎么样".data = some st ∧
      st.intent = some "fallback".data ∧
      st.sql = some "SELECT COUNT(*) AS 事件数量 FROM pingshan_stat_info".data ∧
      ∃ r, st.result = some r ∧
        st.logs.getLast? = some (summaryLine r.status r.rows.length) :=
  c1_fallback_completes ⟨2025, 10, 12⟩ (some DB_CONFIG) false (.connectFail [])
    "今天天气怎么样".data rfl

theorem length_takeWhile_ge (p : Char → Bool) (v t : Str) (hv : ∀ c ∈ v, p c = true) :
    v.length ≤ ((v ++ t).takeWhile p).length := by
  induction v with
  | nil => simp
  | cons c cs ih =>
    have hc : p c = true := hv c (List.mem_cons_self c cs)
    rw [List.cons_append, List.takeWhile_cons_of_pos hc]
    simpa using ih (fun c2 h2 => hv c2 (List.mem_cons_of_mem c h2))

theorem matchUnitAt_sound (s tok : Str) (h : matchUnitAt s = some tok) :
    ∃ v w, s = v ++ unitSuffix ++ w ∧ v ≠ [] ∧ (∀ c ∈ v, isUnitChar c = true) ∧
      tok = v ++ unitSuffix := by
  unfold matchUnitAt at h
  cases hf : (List.range (s.takeWhile isUnitChar).length).reverse.find?
      (fun k => unitSuffix.isPrefixOf (s.drop (k + 1))) with
  | none =>
    rw [hf] at h
    cases h
  | some k =>
    rw [hf] at h
    injection h with h2
    have hpred : unitSuffix.isPrefixOf (s.drop (k + 1)) = true :=
      @List.find?_some _ (fun k2 => unitSuffix.isPrefixOf (s.drop (k2 + 1))) k _ hf
    have hmem : k ∈ (List.range (s.takeWhile isUnitChar).length).reverse :=
      List.mem_of_find?_eq_some hf
    have hk : k < (s.takeWhile isUnitChar).length :=
      List.mem_range.1 (List.mem_reverse.1 hmem)
    obtain ⟨w, hw⟩ := List.isPrefixOf_iff_prefix.1 hpred
    have htwle : (s.takeWhile isUnitChar).length ≤ s.length :=
      List.IsPrefix.length_le ( List.takeWhile_prefix isUnitChar)
    have hklen : k < s.length := Nat.lt_of_lt_of_le hk htwle
    refine ⟨s.take (k + 1), w, ?_, ?_, ?_, h2.symm⟩
    · rw [List.append_assoc, hw, List.take_append_drop]

    · have hlen : (s.take (k + 1)).length = k + 1 := by
        rw [List.length_take]
        omega
      intro hnil
      rw [hnil] at hlen
      cases hlen
    · intro c hc
      have htw : s.takeWhile isUnitChar = s.take (s.takeWhile isUnitChar).length :=
        List.prefix_iff_eq_take.1 ( List.takeWhile_prefix isUnitChar)
      have htake : s.take (k + 1) = (s.takeWhile isUnitChar).take (k + 1) := by
        rw [htw, List.take_take, Nat.min_eq_left (by omega)]
      rw [htake] at hc
      exact List.mem_takeWhile_imp (List.take_subset (k + 1) _ hc)

theorem matchUnitAt_complete (s v w : Str) (hs : s = v ++ unitSuffix ++ w) (hv : v ≠ [])
    (hc : ∀ c ∈ v, isUnitChar c = true) : (matchUnitAt s).isSome = true := by
  have hvlen : 0 < v.length := List.length_pos.2 hv
  have hrun : v.length ≤ (s.takeWhile isUnitChar).length := by
    rw [hs, List.append_assoc]
    exact length_takeWhile_ge isUnitChar v (unitSuffix ++ w) hc
  have hdrop : s.drop v.length = unitSuffix ++ w := by
    rw [hs, List.append_assoc]
    exact List.drop_left v (unitSuffix ++ w)
  have hex : ∃ k ∈ (List.range (s.takeWhile isUnitChar).length).reverse,
      unitSuffix.isPrefixOf (s.drop (k + 1)) = true := by
    refine ⟨v.length - 1, List.mem_reverse.2 (List.mem_range.2 (by omega)), ?_⟩
    have h1 : v.length - 1 + 1 = v.length := by omega
    rw [h1, hdrop]
    exact List.isPrefixOf_iff_prefix.2 (List.prefix_append unitSuffix w)
  have hsome := List.find?_isSome.2 hex
  obtain ⟨k, hk⟩ := Option.isSome_iff_exists.1 hsome
  unfold matchUnitAt
  rw [hk]
  rfl

theorem findUnit_isSome_iff (s : Str) :
    (findUnit s).isSome = true ↔
      ∃ u v w, s = u ++ v ++ unitSuffix ++ w ∧ v ≠ [] ∧ ∀ c ∈ v, isUnitChar c = true := by
  induction s with
  | nil =>
    constructor
    · intro h
      cases h
    · rintro ⟨u, v, w, hs, hv, hc⟩
      exfalso
      have hlen := congrArg List.length hs
      have h5 : unitSuffix.length = 5 := rfl
      have hvlen : 0 < v.length := List.length_pos.2 hv
      simp [List.length_append, h5] at hlen
      omega
  | cons c t ih =>
    show ((match matchUnitAt (c :: t) with
      | some tok => some tok
      | none => findUnit t).isSome = true) ↔ _
    cases hm : matchUnitAt (c :: t) with
    | some tok =>
      constructor
      · intro _
        obtain ⟨v, w, hs, hv, hc, _⟩ := matchUnitAt_sound (c :: t) tok hm
        exact ⟨[], v, w, by simpa using hs, hv, hc⟩
      · intro _
        rfl
    | none =>
      rw [ih]
      constructor
      · rintro ⟨u, v, w, hs, hv, hc⟩
        refine ⟨c :: u, v, w, ?_, hv, hc⟩
        rw [hs]
        simp
      · rintro ⟨u, v, w, hs, hv, hc⟩
        cases u with
        | nil =>
          exfalso
          have hcomp := matchUnitAt_complete (c :: t) v w (by simpa using hs) hv hc
          rw [hm] at hcomp
          cases hcomp
        | cons c2 u2 =>
          simp only [List.cons_append] at hs
          injection hs with h1 h2
          exact ⟨u2, v, w, h2, hv, hc⟩

theorem pfind_nil (k : Str) : pfind [] k = none := rfl

theorem pfind_pinsert_same (m : Params) (k v : Str) : pfind (pinsert m k v) k = some v := by
  simp [pfind, pinsert, List.find?_cons_of_pos]

theorem pfind_pinsert_other (m : Params) (k v k2 : Str) (h : k ≠ k2) :
    pfind (pinsert m k v) k2 = pfind m k2 := by
  unfold pfind pinsert
  rw [List.find?_cons_of_neg _ (by simp [h])]

/-- C8: for a template declaring `unit_name`, parameter derivation maps
`unit_name` to the token the fixed pattern captures when one exists, and
omits the key entirely otherwise; a capture exists exactly when the
question contains a nonempty run of CJK/alphanumeric characters followed
by the literal 街道办事处. -/
theorem c8_unit_name (today : Date) (question : Str) (tpl : QuestionTemplate)
    (h : "unit_name".data ∈ tpl.required_params ∨ "unit_name".data ∈ tpl.optional_params) :
    (∀ tok, findUnit question = some tok →
      pfind (derive_params today question tpl) "unit_name".data = some tok) ∧
    (findUnit question = none →
      pfind (derive_params today question tpl) "unit_name".data = none) ∧
    ((findUnit question).isSome = true ↔
      ∃ u v w, question = u ++ v ++ unitSuffix ++ w ∧ v ≠ [] ∧
        ∀ c ∈ v, isUnitChar c = true) := by
  have hne1 : ("event_filter".data : Str) ≠ "unit_name".data := by decide
  have hne2 : ("time_filter".data : Str) ≠ "unit_name".data := by decide
  refine ⟨?_, ?_, findUnit_isSome_iff question⟩
  · intro tok htok
    simp only [derive_params, htok]
    rw [if_pos h]
    split
    · split
      · rw [pfind_pinsert_other _ _ _ _ hne2, pfind_pinsert_other _ _ _ _ hne1,
          pfind_pinsert_same]
      · rw [pfind_pinsert_other _ _ _ _ hne2, pfind_pinsert_same]
    · split
      · rw [pfind_pinsert_other _ _ _ _ hne1, pfind_pinsert_same]
      · rw [pfind_pinsert_same]
  · intro htok
    simp only [derive_params, htok]
    rw [if_pos h]
    split
    · split
      · rw [pfind_pinsert_other _ _ _ _ hne2, pfind_pinsert_other _ _ _ _ hne1, pfind_nil]
      · rw [pfind_pinsert_other _ _ _ _ hne2, pfind_nil]
    · split
      · rw [pfind_pinsert_other _ _ _ _ hne1, pfind_nil]
      · rw [pfind_nil]

/-- Witness for C8: the street-office token of the first example question. -/
theorem c8_unit_name_witness :
    pfind (derive_params ⟨2025, 1, 1⟩ "这个月坪山街道办事处处理了多少案件".data template_unit_count)
      "unit_name".data = some "这个月坪山街道办事处".data :=
  (c8_unit_name ⟨2025, 1, 1⟩ "这个月坪山街道办事处处理了多少案件".data template_unit_count
    (Or.inl (by decide))).1 "这个月坪山街道办事处".data rfl

theorem dash_data : ("-".data : Str) = ['-'] := rfl

theorem d01_data : ("-01".data : Str) = ['-', '0', '1'] := rfl

theorem charVal_digitChar (n : Nat) (h : n < 10) : charVal (digitChar n) = n := by
  interval_cases n <;> decide

theorem parseNat_pad4 (y : Nat) (h : y ≤ 9999) : parseNat (pad4 y) = y := by
  show List.foldl _ 0 _ = y
  simp only [pad4, List.foldl]
  rw [charVal_digitChar _ (by omega), charVal_digitChar _ (by omega),
    charVal_digitChar _ (by omega), charVal_digitChar _ (by omega)]
  omega

theorem parseNat_pad2 (m : Nat) (h : m ≤ 99) : parseNat (pad2 m) = m := by
  show List.foldl _ 0 _ = m
  simp only [pad2, List.foldl]
  rw [charVal_digitChar _ (by omega), charVal_digitChar _ (by omega)]
  omega

theorem strftime01_take7 (y m d : Nat) :
    (strftime_Y_m_01 ⟨y, m, d⟩).take 7 = pad4 y ++ "-".data ++ pad2 m := by
  show List.take 7 ((pad4 y ++ "-".data ++ pad2 m) ++ "-01".data) = _
  rw [List.take_left' (by simp [pad4, pad2, dash_data])]

theorem strptime_roundtrip (y m : Nat) (hy : y ≤ 9999) (hm : m ≤ 99) :
    strptime_Y_m_d ((pad4 y ++ "-".data ++ pad2 m) ++ "-01".data) = ⟨y, m, 1⟩ := by
  unfold strptime_Y_m_d
  rw [Date.mk.injEq]
  refine ⟨?_, ?_, ?_⟩
  · rw [List.append_assoc, List.append_assoc,
      List.take_left' (show (pad4 y).length = 4 by simp [pad4]),
      parseNat_pad4 y hy]
  · rw [List.append_assoc,
      List.drop_left' (show (pad4 y ++ "-".data).length = 5 by simp [pad4, dash_data]),
      List.take_left' (show (pad2 m).length = 2 by simp [pad2]),
      parseNat_pad2 m hm]
  · rw [d01_data, show (['-', '0', '1'] : Str) = ['-'] ++ ['0', '1'] from rfl,
      ← List.append_assoc,
      List.drop_left' (show ((pad4 y ++ "-".data ++ pad2 m) ++ ['-']).length = 8 by
        simp [pad4, pad2, dash_data])]
    decide

theorem daysInMonth_ge_28 (y m : Nat) : 28 ≤ daysInMonth y m := by
  unfold daysInMonth
  split
  · split <;> omega
  · split <;> omega

theorem daysInMonth_le_31 (y m : Nat) : daysInMonth y m ≤ 31 := by
  unfold daysInMonth
  split
  · split <;> omega
  · split <;> omega

theorem addDays_add (d : Date) (a b : Nat) : addDays d (a + b) = addDays (addDays d a) b := by
  induction a generalizing d with
  | zero =>
    rw [Nat.zero_add]
    rfl
  | succ n ih =>
    have h1 : n + 1 + b = n + b + 1 := by omega
    rw [h1]
    show addDays (nextDay d) (n + b) = addDays (addDays (nextDay d) n) b
    exact ih (nextDay d)

theorem addDays_within (y m d k : Nat) (h : d + k ≤ daysInMonth y m) :
    addDays ⟨y, m, d⟩ k = ⟨y, m, d + k⟩ := by
  induction k generalizing d with
  | zero => rfl
  | succ n ih =>
    have hd : d < daysInMonth y m := by omega
    show addDays (nextDay ⟨y, m, d⟩) n = _
    have hnext : nextDay ⟨y, m, d⟩ = ⟨y, m, d + 1⟩ := by
      unfold nextDay
      rw [if_pos hd]
    rw [hnext, ih (d + 1) (by omega)]
    have h2 : d + 1 + n = d + (n + 1) := by omega
    rw [h2]

theorem nextDay_roll (y m : Nat) (h2 : m < 12) :
    nextDay ⟨y, m, daysInMonth y m⟩ = ⟨y, m + 1, 1⟩ := by
  unfold nextDay
  dsimp only
  rw [if_neg (by omega), if_pos h2]

theorem nextDay_roll_year (y : Nat) :
    nextDay ⟨y, 12, daysInMonth y 12⟩ = ⟨y + 1, 1, 1⟩ := by
  unfold nextDay
  dsimp only
  rw [if_neg (by omega), if_neg (by omega)]

theorem addDays_32_from_first (y m : Nat) (h1 : 1 ≤ m) (h2 : m ≤ 12) :
    addDays ⟨y, m, 1⟩ 32 =
      if m = 12 then ⟨y + 1, 1, 33 - daysInMonth y 12⟩
      else ⟨y, m + 1, 33 - daysInMonth y m⟩ := by
  have hge := daysInMonth_ge_28 y m
  have hle := daysInMonth_le_31 y m
  have h32 : 32 = (daysInMonth y m - 1) + (1 + (32 - daysInMonth y m)) := by omega
  rw [h32, addDays_add, addDays_within y m 1 (daysInMonth y m - 1) (by omega)]
  have hfirst : 1 + (daysInMonth y m - 1) = daysInMonth y m := by omega
  rw [hfirst, addDays_add]
  have hone : addDays ⟨y, m, daysInMonth y m⟩ 1 = nextDay ⟨y, m, daysInMonth y m⟩ := rfl
  rw [hone]
  by_cases hm12 : m = 12
  · subst hm12
    rw [nextDay_roll_year, if_pos rfl,
      addDays_within (y + 1) 1 1 (32 - daysInMonth y 12)
        (by have := daysInMonth_ge_28 (y + 1) 1; omega)]
    have h3 : 1 + (32 - daysInMonth y 12) = 33 - daysInMonth y 12 := by omega
    rw [h3]
  · rw [nextDay_roll y m (by omega), if_neg hm12,
      addDays_within y (m + 1) 1 (32 - daysInMonth y m)
        (by have := daysInMonth_ge_28 y (m + 1); omega)]
    have h3 : 1 + (32 - daysInMonth y m) = 33 - daysInMonth y m := by omega
    rw [h3]

theorem strftime_d1 (y m : Nat) : strftime_Y_m_d ⟨y, m, 1⟩ = strftime_Y_m_01 ⟨y, m, 1⟩ := by
  show pad4 y ++ "-".data ++ pad2 m ++ "-".data ++ pad2 1 =
    pad4 y ++ "-".data ++ pad2 m ++ "-01".data
  rw [List.append_assoc (pad4 y ++ "-".data ++ pad2 m)]
  rfl

/-- C4: for every valid invocation date with a four-digit year (including
December, crossing the year-end), the default time filter is the half-open
interval on `CREATE_TIME` from the first day of the invocation month to
the first day of the following month. -/
theorem c4_time_filter_month_bounds (today : Date)
    (hm1 : 1 ≤ today.month) (hm2 : today.month ≤ 12)
    (hy1 : 1000 ≤ today.year) (hy2 : today.year ≤ 9998) :
    default_time_filter today =
      "CREATE_TIME >= '".data ++ strftime_Y_m_01 ⟨today.year, today.month, 1⟩ ++
      "' AND CREATE_TIME < '".data ++
      strftime_Y_m_01
        (if today.month = 12 then ⟨today.year + 1, 1, 1⟩
         else ⟨today.year, today.month + 1, 1⟩) ++
      "'".data := by
  obtain ⟨y, m, d⟩ := today
  simp only at hm1 hm2 hy1 hy2
  simp only [default_time_filter, replaceDay]
  rw [strftime01_take7, strptime_roundtrip y m (by omega) (by omega),
    addDays_32_from_first y m hm1 hm2]
  by_cases hm12 : m = 12
  · subst hm12
    rw [if_pos rfl, if_pos rfl]
    show _ ++ _ ++ _ ++ strftime_Y_m_d ⟨y + 1, 1, 1⟩ ++ _ = _
    rw [strftime_d1]
  · rw [if_neg hm12, if_neg hm12]
    show _ ++ _ ++ _ ++ strftime_Y_m_d ⟨y, m + 1, 1⟩ ++ _ = _
    rw [strftime_d1]

/-- Witness for C4 at the last day of December 2025: the upper bound rolls
over the year-end to 2026-01-01. -/
theorem c4_time_filter_month_bounds_witness :
    default_time_filter ⟨2025, 12, 31⟩ =
      "CREATE_TIME >= '".data ++ strftime_Y_m_01 ⟨2025, 12, 1⟩ ++
      "' AND CREATE_TIME < '".data ++ strftime_Y_m_01 ⟨2025 + 1, 1, 1⟩ ++
      "'".data := by
  have h := c4_time_filter_month_bounds ⟨2025, 12, 31⟩ (by decide) (by decide)
    (by decide) (by decide)
  simpa using h

end SmartQA
